import Mathlib

/-!
Verification development for the dynamic RBAC backend.

The definitions below are a shallow embedding of the permission-resolution
engine of the repository:

* `getAllPermissions` embeds `userSchema.methods.getAllPermissions`
  (models/User.js): start from the role permissions, append each custom
  granted permission whose id is not already present, then filter out every
  permission whose id occurs in the revoked list.
* `isLocked`, `incLoginAttempts`, `resetLoginAttempts` embed the account
  lockout methods of the same model.
* `requirePermissions` embeds the permission middleware
  (middleware/permissions file), including the SuperAdmin bypass that runs
  before the resolver.
* `authenticate` embeds the session-validation middleware (middleware/auth.js).
* `login` embeds the lock gate / password check / attempt counting order of
  the login controller (controllers/authController).
* `grantCustomPermissions` / `revokeCustomPermissions` embed the override
  mutation logic of controllers/roleController.js (the mutation steps after
  input validation; id-format and catalog-existence checks are upstream of
  the cited lines).

Mongo ObjectId equality (`_id.toString() === ...`) is modelled as equality of
a natural-number id `pid`; permission display names (used by the middleware
for matching) are carried in `pname`.  Fields of the schemas that no claim
touches (description, timestamps, email fields, password hash) are omitted;
password comparison (bcrypt) is an external capability modelled as a boolean
input to `login`.
-/

namespace RBAC

/-- A permission document: Mongo id plus the `resource.action` name. -/
structure Permission where
  pid : Nat
  pname : String
deriving DecidableEq

/-- A role document (roleSchema): name, permission list, flags. -/
structure Role where
  rname : String
  permissions : List Permission
  isSystemRole : Bool
  isActive : Bool
deriving DecidableEq

/-- Per-user override lists (userSchema.customPermissions). -/
structure CustomPermissions where
  granted : List Permission
  revoked : List Permission
deriving DecidableEq

/-- A user document with the fields the engine reads.  `role` is an `Option`
because a populate of a dangling reference yields null. -/
structure User where
  role : Option Role
  customPermissions : CustomPermissions
  isActive : Bool
  loginAttempts : Nat
  lockUntil : Option Nat
deriving DecidableEq

/-- The `list.some(x => x._id.toString() === id)` idiom of the source:
does the list contain a permission with this id? -/
def hasPid (l : List Permission) (i : Nat) : Bool :=
  l.any (fun p => p.pid == i)

/-- The virtual `isLocked`: is a lock timestamp present and strictly in the
future? -/
def isLocked (u : User) (now : Nat) : Bool :=
  match u.lockUntil with
  | some t => now < t
  | none => false

/-- One step of the granted-permission loop in `getAllPermissions`:
push the permission unless a permission with the same id is already present. -/
def pushIfAbsent (acc : List Permission) (p : Permission) : List Permission :=
  if hasPid acc p.pid then acc else acc ++ [p]

/-- The optional-chaining read of the role permissions: the role permission
list, or empty when the role is not loaded. -/
def rolePermissionsOf (u : User) : List Permission :=
  match u.role with
  | some r => r.permissions
  | none => []

/-- Embedding of `userSchema.methods.getAllPermissions` (models/User.js):
role permissions, then each granted permission not already present, then
remove every permission whose id is in the revoked list. -/
def getAllPermissions (u : User) : List Permission :=
  let rolePermissions := rolePermissionsOf u
  let grantedPermissions := u.customPermissions.granted
  let revokedPermissions := u.customPermissions.revoked
  let allPermissions := grantedPermissions.foldl pushIfAbsent rolePermissions
  allPermissions.filter (fun p => !(hasPid revokedPermissions p.pid))

theorem hasPid_nil (i : Nat) : hasPid [] i = false := rfl

theorem hasPid_cons (p : Permission) (l : List Permission) (i : Nat) :
    hasPid (p :: l) i = ((p.pid == i) || hasPid l i) := by
  simp [hasPid]

theorem hasPid_append (l m : List Permission) (i : Nat) :
    hasPid (l ++ m) i = (hasPid l i || hasPid m i) := by
  simp [hasPid]

theorem hasPid_pushIfAbsent (acc : List Permission) (p : Permission) (i : Nat) :
    hasPid (pushIfAbsent acc p) i = (hasPid acc i || (p.pid == i)) := by
  unfold pushIfAbsent
  by_cases h : hasPid acc p.pid = true
  · rw [if_pos h]
    cases hb : p.pid == i with
    | false => simp [hb]
    | true =>
      have hpi : p.pid = i := eq_of_beq hb
      subst hpi
      simp [h]
  · rw [if_neg h]
    simp [hasPid_append, hasPid_cons, hasPid_nil]

theorem hasPid_foldl (l acc : List Permission) (i : Nat) :
    hasPid (l.foldl pushIfAbsent acc) i = (hasPid acc i || hasPid l i) := by
  induction l generalizing acc with
  | nil => simp [hasPid]
  | cons p l ih =>
    simp only [List.foldl_cons, ih, hasPid_pushIfAbsent, hasPid_cons]
    rw [Bool.or_assoc]

theorem hasPid_filter_not (l m : List Permission) (i : Nat) :
    hasPid (l.filter (fun p => !(hasPid m p.pid))) i
      = (hasPid l i && !(hasPid m i)) := by
  induction l with
  | nil => simp [hasPid]
  | cons p l ih =>
    by_cases hm : hasPid m p.pid = true
    · simp only [List.filter_cons, hm, Bool.not_true, Bool.false_eq_true,
        if_false, ih, hasPid_cons]
      cases hb : p.pid == i with
      | false => simp [hb]
      | true =>
        have hpi : p.pid = i := eq_of_beq hb
        subst hpi
        simp [hm]
    · simp only [Bool.not_eq_true] at hm
      simp only [List.filter_cons, hm, Bool.not_false, if_true, hasPid_cons, ih]
      cases hb : p.pid == i with
      | false => simp [hb]
      | true =>
        have hpi : p.pid = i := eq_of_beq hb
        subst hpi
        simp [hm]

/-- Membership (by id) in the resolved set, for any user: union of role and
granted permissions, minus revoked. -/
theorem hasPid_getAllPermissions (u : User) (i : Nat) :
    hasPid (getAllPermissions u) i
      = ((hasPid (rolePermissionsOf u) i || hasPid u.customPermissions.granted i)
          && !(hasPid u.customPermissions.revoked i)) := by
  unfold getAllPermissions
  rw [hasPid_filter_not, hasPid_foldl]

/-- Options of the permission middleware, mirroring the destructured
`requireAll = false, allowSuperAdmin = true` defaults. -/
structure PermOptions where
  requireAll : Bool
  allowSuperAdmin : Bool
deriving DecidableEq

/-- The default option values of `requirePermissions`. -/
def defaultPermOptions : PermOptions := ⟨false, true⟩

/-- Outcome of the permission middleware.  `allow` carries the
`req.permissionCheck` audit record when one was attached (`none` on the
SuperAdmin bypass, which calls `next()` without attaching one); `deny`
carries the `requiredPermissions` and `userPermissions` fields of the 403
response body. -/
inductive Decision where
  | authRequired : Decision
  | allow : Option (List String × List String) → Decision
  | deny : List String → List String → Decision
deriving DecidableEq

/-- Did the middleware call `next()` (with or without an audit record)? -/
def Decision.isAllow : Decision → Bool
  | Decision.allow _ => true
  | _ => false

/-- Middleware result plus whether `getAllPermissions` was called on the way
(the source awaits it exactly on the path below the bypass). -/
structure MwResponse where
  decision : Decision
  resolverInvoked : Bool
deriving DecidableEq

/-- Does the request user have a loaded role whose name equals the given
string? -/
def roleNameIs (u : User) (s : String) : Bool :=
  match u.role with
  | some r => r.rname == s
  | none => false

/-- Embedding of the `requirePermissions` middleware: authentication guard,
SuperAdmin bypass (before the resolver), then the requireAll / any-of check
against the names of the resolved permission set. -/
def requirePermissions (required : List String) (opts : PermOptions)
    (reqUser : Option User) : MwResponse :=
  match reqUser with
  | none => ⟨Decision.authRequired, false⟩
  | some user =>
    if opts.allowSuperAdmin && roleNameIs user "SuperAdmin" then
      ⟨Decision.allow none, false⟩
    else
      let userPermissionNames := (getAllPermissions user).map Permission.pname
      let hasAccess :=
        if opts.requireAll then
          required.all (fun p => userPermissionNames.contains p)
        else
          required.any (fun p => userPermissionNames.contains p)
      if hasAccess then
        ⟨Decision.allow (some (required, userPermissionNames)), true⟩
      else
        ⟨Decision.deny required userPermissionNames, true⟩

/-- Default of the MAX_LOGIN_ATTEMPTS environment setting. -/
def maxLoginAttempts : Nat := 5

/-- Default of the LOCKOUT_TIME environment setting, in minutes. -/
def lockoutTimeMinutes : Nat := 15

/-- The update built on the non-reset path of `incLoginAttempts`:
increment the counter, and set the lock when the incremented counter reaches
the threshold and the account is not already locked. -/
def incStep (u : User) (now : Nat) : User :=
  if maxLoginAttempts ≤ u.loginAttempts + 1 ∧ isLocked u now = false then
    { u with loginAttempts := u.loginAttempts + 1,
             lockUntil := some (now + lockoutTimeMinutes * 60 * 1000) }
  else
    { u with loginAttempts := u.loginAttempts + 1 }

/-- Embedding of `userSchema.methods.incLoginAttempts`: when a previous lock
timestamp lies strictly before now, clear it and restart the counter at 1;
otherwise apply the increment step. -/
def incLoginAttempts (u : User) (now : Nat) : User :=
  match u.lockUntil with
  | some t => if t < now then { u with loginAttempts := 1, lockUntil := none }
              else incStep u now
  | none => incStep u now

/-- Embedding of `userSchema.methods.resetLoginAttempts`: unset counter and
lock ($unset makes the fields absent; absent counts as 0 / no lock). -/
def resetLoginAttempts (u : User) : User :=
  { u with loginAttempts := 0, lockUntil := none }

/-- Response of the login controller, with instrumentation recording whether
`incLoginAttempts` and `comparePassword` were reached. -/
structure LoginOutcome where
  status : Nat
  message : String
  finalUser : Option User
  incInvoked : Bool
  passwordChecked : Bool
deriving DecidableEq

/-- Embedding of the login controller from the point where the user was
looked up: lock gate, active gate, password check (bcrypt modelled as the
boolean `passwordCorrect`), attempt counting on failure, reset on success. -/
def login (found : Option User) (passwordCorrect : Bool) (now : Nat) :
    LoginOutcome :=
  match found with
  | none => ⟨401, "Invalid email or password", none, false, false⟩
  | some user =>
    if isLocked user now then
      ⟨423, "Account is temporarily locked due to too many failed login attempts. Please try again later.",
        some user, false, false⟩
    else if user.isActive = false then
      ⟨403, "Account is deactivated. Please contact administrator.",
        some user, false, false⟩
    else if passwordCorrect = false then
      ⟨401, "Invalid email or password",
        some (incLoginAttempts user now), true, true⟩
    else
      ⟨200, "Login successful",
        some (if 0 < user.loginAttempts then resetLoginAttempts user else user),
        false, true⟩

/-- Result of verifying the bearer token (jwt.verify): a user id on success,
or the expired / invalid failure kinds. -/
inductive TokenCheck where
  | valid : Nat → TokenCheck
  | expired : TokenCheck
  | invalid : TokenCheck
deriving DecidableEq

/-- Result of the authenticate middleware: a request user, or a rejection
with HTTP status and message. -/
inductive AuthResult where
  | ok : User → AuthResult
  | fail : Nat → String → AuthResult
deriving DecidableEq

/-- The six failure messages of the authenticate middleware. -/
def authenticateFailureMessages : List String :=
  ["Access denied. No token provided.",
   "Access denied. Token has expired.",
   "Access denied. Invalid token.",
   "Access denied. User not found.",
   "Access denied. Account is deactivated.",
   "Access denied. Account is temporarily locked due to too many failed login attempts."]

/-- Embedding of the `authenticate` middleware (middleware/auth.js): token
presence, token verification, user lookup, active flag, lock check.  The
second component records whether the permission resolver was invoked on this
path (the source never calls `getAllPermissions` here). -/
def authenticate (token : Option TokenCheck) (findById : Nat → Option User)
    (now : Nat) : AuthResult × Bool :=
  match token with
  | none => (AuthResult.fail 401 "Access denied. No token provided.", false)
  | some TokenCheck.expired =>
      (AuthResult.fail 401 "Access denied. Token has expired.", false)
  | some TokenCheck.invalid =>
      (AuthResult.fail 401 "Access denied. Invalid token.", false)
  | some (TokenCheck.valid uid) =>
    match findById uid with
    | none => (AuthResult.fail 401 "Access denied. User not found.", false)
    | some user =>
      if user.isActive = false then
        (AuthResult.fail 401 "Access denied. Account is deactivated.", false)
      else if isLocked user now then
        (AuthResult.fail 401 "Access denied. Account is temporarily locked due to too many failed login attempts.", false)
      else
        (AuthResult.ok user, false)

/-- Embedding of `grantCustomPermissions` (roleController.js): reject an
empty request; compute the requested permissions not already granted; if
none remain, reject without touching the user; otherwise push them onto
granted and clear every requested id from revoked.  The first component is
the error message of a 400 response (`none` on success); the second is the
user document as left in the store. -/
def grantCustomPermissions (u : User) (request : List Permission) :
    Option String × User :=
  if request.isEmpty then
    (some "Permissions array is required", u)
  else
    let newPermissions :=
      request.filter (fun p => !(hasPid u.customPermissions.granted p.pid))
    if newPermissions.isEmpty then
      (some "All specified permissions are already granted to this user", u)
    else
      (none,
        { u with customPermissions :=
            ⟨u.customPermissions.granted ++ newPermissions,
             u.customPermissions.revoked.filter
               (fun q => !(hasPid request q.pid))⟩ })

/-- Embedding of `revokeCustomPermissions` (roleController.js): reject an
empty request; push the requested permissions not already revoked onto
revoked (only when there are any), and remove every requested id from
granted. -/
def revokeCustomPermissions (u : User) (request : List Permission) :
    Option String × User :=
  if request.isEmpty then
    (some "Permissions array is required", u)
  else
    let newRevoked :=
      request.filter (fun p => !(hasPid u.customPermissions.revoked p.pid))
    let revoked :=
      if newRevoked.isEmpty then u.customPermissions.revoked
      else u.customPermissions.revoked ++ newRevoked
    (none,
      { u with customPermissions :=
          ⟨u.customPermissions.granted.filter
             (fun q => !(hasPid request q.pid)),
           revoked⟩ })

/-- The steady-state invariant of the override lists: no granted permission
has its id in the revoked list. -/
def DisjointOverrides (u : User) : Prop :=
  ∀ p ∈ u.customPermissions.granted,
    hasPid u.customPermissions.revoked p.pid = false

theorem hasPid_iff_exists (l : List Permission) (i : Nat) :
    hasPid l i = true ↔ ∃ p ∈ l, p.pid = i := by
  simp [hasPid]

theorem hasPid_singleton (p : Permission) (i : Nat) :
    hasPid [p] i = (p.pid == i) := by
  simp [hasPid]

theorem hasPid_ite_empty_append (r l : List Permission) (i : Nat) :
    hasPid (if l.isEmpty then r else r ++ l) i = (hasPid r i || hasPid l i) := by
  cases l with
  | nil => simp [hasPid]
  | cons p l => simp [hasPid_append]

/-- Inversion of a successful grant: the updated user document. -/
theorem grant_ok_eq (u : User) (req : List Permission) (u2 : User)
    (h : grantCustomPermissions u req = (none, u2)) :
    u2 = { u with customPermissions :=
        ⟨u.customPermissions.granted
            ++ req.filter (fun p => !(hasPid u.customPermissions.granted p.pid)),
         u.customPermissions.revoked.filter
            (fun q => !(hasPid req q.pid))⟩ } := by
  simp only [grantCustomPermissions] at h
  split at h
  · simp at h
  · split at h
    · simp at h
    · injection h with h1 h2
      exact h2.symm

/-- Inversion of a successful revoke: the updated user document. -/
theorem revoke_ok_eq (u : User) (req : List Permission) (u2 : User)
    (h : revokeCustomPermissions u req = (none, u2)) :
    u2 = { u with customPermissions :=
        ⟨u.customPermissions.granted.filter
            (fun q => !(hasPid req q.pid)),
         if (req.filter (fun p => !(hasPid u.customPermissions.revoked p.pid))).isEmpty
         then u.customPermissions.revoked
         else u.customPermissions.revoked
            ++ req.filter (fun p => !(hasPid u.customPermissions.revoked p.pid))⟩ } := by
  simp only [revokeCustomPermissions] at h
  split at h
  · simp at h
  · injection h with h1 h2
    exact h2.symm

/-- Grant of a single already-granted permission is rejected unchanged. -/
theorem grant_single_already (u : User) (X : Permission)
    (hg : hasPid u.customPermissions.granted X.pid = true) :
    grantCustomPermissions u [X]
      = (some "All specified permissions are already granted to this user", u) := by
  simp [grantCustomPermissions, hg]

/-- Grant of a single not-yet-granted permission succeeds. -/
theorem grant_single_fresh (u : User) (X : Permission)
    (hg : hasPid u.customPermissions.granted X.pid = false) :
    grantCustomPermissions u [X]
      = (none, { u with customPermissions :=
          ⟨u.customPermissions.granted ++ [X],
           u.customPermissions.revoked.filter
              (fun q => !(hasPid [X] q.pid))⟩ }) := by
  simp [grantCustomPermissions, hg]

/-- Revoke of a single permission always succeeds, appending to revoked only
when the id was not revoked yet and always clearing it from granted. -/
theorem revoke_single_eq (u : User) (X : Permission) :
    revokeCustomPermissions u [X]
      = (none, { u with customPermissions :=
          ⟨u.customPermissions.granted.filter
              (fun q => !(hasPid [X] q.pid)),
           if hasPid u.customPermissions.revoked X.pid
           then u.customPermissions.revoked
           else u.customPermissions.revoked ++ [X]⟩ }) := by
  by_cases hr : hasPid u.customPermissions.revoked X.pid = true
  · simp [revokeCustomPermissions, hr]
  · simp only [Bool.not_eq_true] at hr
    simp [revokeCustomPermissions, hr]

/-- Demo permission documents. -/
def pCreate : Permission := ⟨1, "post.create"⟩

def pRead : Permission := ⟨2, "post.read"⟩

def pDelete : Permission := ⟨3, "post.delete"⟩

/-- An Editor role holding create and read. -/
def demoEditorRole : Role := ⟨"Editor", [pCreate, pRead], false, true⟩

/-- A SuperAdmin role with an empty permission list. -/
def demoSuperRole : Role := ⟨"SuperAdmin", [], true, true⟩

/-- An editor with one grant and one revoke, overrides disjoint. -/
def demoEditorUser : User := ⟨some demoEditorRole, ⟨[pDelete], [pRead]⟩, true, 0, none⟩

/-- A SuperAdmin whose effective permission set is empty. -/
def demoSuperUser : User := ⟨some demoSuperRole, ⟨[], []⟩, true, 0, none⟩

/-- A user whose role reference did not resolve. -/
def demoNoRoleUser : User := ⟨none, ⟨[pDelete], []⟩, true, 0, none⟩

/-- A user whose lock expires exactly at instant 100, counter at threshold. -/
def demoBoundaryUser : User := ⟨none, ⟨[], []⟩, true, 5, some 100⟩

/-- A user whose lock expired strictly in the past. -/
def demoExpiredUser : User := ⟨none, ⟨[], []⟩, true, 5, some 50⟩

/-- A user with no failures recorded. -/
def demoFreshUser : User := ⟨none, ⟨[], []⟩, true, 0, none⟩

/-- A currently locked user. -/
def demoLockedUser : User := ⟨none, ⟨[], []⟩, true, 3, some 1000⟩

/-- A deactivated user. -/
def demoInactiveUser : User := ⟨some demoEditorRole, ⟨[], []⟩, false, 0, none⟩

/-- A user with the same permission in both override lists. -/
def demoOverlapUser : User := ⟨some demoEditorRole, ⟨[pDelete], [pDelete]⟩, true, 0, none⟩

/-- A user store holding only the deactivated user, at id 7. -/
def demoFindById : Nat → Option User :=
  fun i => match i with
  | 7 => some demoInactiveUser
  | _ => none

/-- C1: for a principal whose role (with its permission set) is loaded, the
resolver returns exactly the union of the role permissions and the granted
overrides, minus the revoked overrides, membership taken by permission id;
union is computed before subtraction, so an id in the revoked list is absent
from the result even when it occurs in the role permissions or in granted. -/
theorem resolve_effective_formula (u : User) (r : Role) (i : Nat)
    (h : u.role = some r) :
    (hasPid (getAllPermissions u) i
      = ((hasPid r.permissions i || hasPid u.customPermissions.granted i)
          && !(hasPid u.customPermissions.revoked i)))
    ∧ (hasPid u.customPermissions.revoked i = true →
        hasPid (getAllPermissions u) i = false) := by
  have hre : rolePermissionsOf u = r.permissions := by
    simp [rolePermissionsOf, h]
  constructor
  · rw [hasPid_getAllPermissions, hre]
  · intro hrv
    rw [hasPid_getAllPermissions, hrv]
    simp

/-- Witness for C1: the revoked read permission is absent from the resolved
set of the demo editor even though the role holds it. -/
theorem resolve_effective_formula_witness :
    hasPid demoEditorRole.permissions 2 = true
      ∧ hasPid (getAllPermissions demoEditorUser) 2 = false :=
  ⟨by decide, (resolve_effective_formula demoEditorUser demoEditorRole 2 rfl).2 (by decide)⟩

/-- C9: the isActive flag of the role does not affect resolution — two users
identical except for that flag resolve to the same permission list. -/
theorem resolve_ignores_role_isActive (u : User) (r : Role) (b : Bool) :
    getAllPermissions { u with role := some { r with isActive := b } }
      = getAllPermissions { u with role := some r } := rfl

/-- C2: a request user whose role name is SuperAdmin is admitted by the
permission middleware (with the bypass at its default) unconditionally, for
every required permission list and every requireAll value, without the
resolver being invoked and with no audit record attached. -/
theorem superadmin_bypass (required : List String) (ra : Bool) (u : User)
    (r : Role) (h : u.role = some r) (hn : r.rname = "SuperAdmin") :
    requirePermissions required ⟨ra, true⟩ (some u)
      = ⟨Decision.allow none, false⟩ := by
  simp [requirePermissions, roleNameIs, h, hn]

/-- Witness for C2: the demo SuperAdmin with an empty role permission list is
admitted for a required permission it does not hold. -/
theorem superadmin_bypass_witness :
    requirePermissions ["post.create"] defaultPermOptions (some demoSuperUser)
      = ⟨Decision.allow none, false⟩ :=
  superadmin_bypass ["post.create"] false demoSuperUser demoSuperRole rfl rfl

/-- C4 counterexample: on a user whose role reference is not loaded the
resolver does not signal an error — it returns the granted overrides (minus
revoked) as an ordinary permission list. -/
theorem missing_role_counterexample :
    demoNoRoleUser.role = none
      ∧ getAllPermissions demoNoRoleUser = [pDelete] := ⟨rfl, rfl⟩

/-- C4 amended: with no role loaded the resolver silently treats the role
permissions as empty and resolves to granted minus revoked. -/
theorem missing_role_resolves_overrides (u : User) (i : Nat)
    (h : u.role = none) :
    hasPid (getAllPermissions u) i
      = (hasPid u.customPermissions.granted i
          && !(hasPid u.customPermissions.revoked i)) := by
  rw [hasPid_getAllPermissions]
  simp [rolePermissionsOf, h, hasPid]

/-- Witness for the amended C4 at the demo user without a role. -/
theorem missing_role_resolves_overrides_witness :
    hasPid (getAllPermissions demoNoRoleUser) 3
      = (hasPid demoNoRoleUser.customPermissions.granted 3
          && !(hasPid demoNoRoleUser.customPermissions.revoked 3)) :=
  missing_role_resolves_overrides demoNoRoleUser 3 rfl

/-- C3 counterexample: at the instant the lock timestamp equals now the
account is already unlocked (the lock has run out for the isLocked virtual),
yet a failed attempt does not reset the counter to 1 and clear the lock — it
increments to 6 and sets a fresh lock. -/
theorem lock_expiry_boundary_counterexample :
    isLocked demoBoundaryUser 100 = false
      ∧ demoBoundaryUser.lockUntil = some 100
      ∧ (incLoginAttempts demoBoundaryUser 100).loginAttempts = 6
      ∧ (incLoginAttempts demoBoundaryUser 100).lockUntil = some 900100 := by
  decide

/-- C3 amended: a failed attempt resets the counter to 1 and clears the lock
only when the previous lock timestamp is strictly in the past; with no lock
timestamp (and likewise at the exact expiry instant) the counter increments
and, when the incremented counter reaches the threshold of 5, the account
locks for 15 minutes; four consecutive failures from a fresh account leave
it unlocked with 4 attempts and the fifth failure locks it. -/
theorem incLoginAttempts_spec (u : User) (now : Nat) :
    (∀ t, u.lockUntil = some t → t < now →
       incLoginAttempts u now = { u with loginAttempts := 1, lockUntil := none })
    ∧ (u.lockUntil = none →
       incLoginAttempts u now =
         (if maxLoginAttempts ≤ u.loginAttempts + 1 then
            { u with loginAttempts := u.loginAttempts + 1,
                     lockUntil := some (now + lockoutTimeMinutes * 60 * 1000) }
          else { u with loginAttempts := u.loginAttempts + 1 }))
    ∧ (u.lockUntil = some now →
       isLocked u now = false
         ∧ (incLoginAttempts u now).loginAttempts = u.loginAttempts + 1
         ∧ (maxLoginAttempts ≤ u.loginAttempts + 1 →
             (incLoginAttempts u now).lockUntil
               = some (now + lockoutTimeMinutes * 60 * 1000)))
    ∧ ((incLoginAttempts (incLoginAttempts (incLoginAttempts
          (incLoginAttempts demoFreshUser 0) 0) 0) 0).loginAttempts = 4
        ∧ (incLoginAttempts (incLoginAttempts (incLoginAttempts
            (incLoginAttempts demoFreshUser 0) 0) 0) 0).lockUntil = none
        ∧ (incLoginAttempts (incLoginAttempts (incLoginAttempts (incLoginAttempts
            (incLoginAttempts demoFreshUser 0) 0) 0) 0) 0).lockUntil = some 900000
        ∧ isLocked (incLoginAttempts (incLoginAttempts (incLoginAttempts
            (incLoginAttempts (incLoginAttempts demoFreshUser 0) 0) 0) 0) 0) 1
            = true) := by
  refine ⟨?_, ?_, ?_, by decide⟩
  · intro t ht hlt
    simp [incLoginAttempts, ht, hlt]
  · intro hn
    have hl : isLocked u now = false := by simp [isLocked, hn]
    simp only [incLoginAttempts, hn, incStep, hl]
    by_cases hmax : maxLoginAttempts ≤ u.loginAttempts + 1
    · simp [hmax]
    · simp [hmax]
  · intro hb
    have hl : isLocked u now = false := by simp [isLocked, hb]
    have hnr : ¬ now < now := Nat.lt_irrefl now
    refine ⟨hl, ?_, ?_⟩
    · simp only [incLoginAttempts, hb, hnr, if_false, incStep, hl]
      by_cases hmax : maxLoginAttempts ≤ u.loginAttempts + 1
      · simp [hmax]
      · simp [hmax]
    · intro hmax
      simp [incLoginAttempts, hb, hnr, incStep, hl, hmax]

/-- Witness for the amended C3: a strictly expired lock resets the counter
to 1 and clears the lock timestamp. -/
theorem incLoginAttempts_spec_witness :
    incLoginAttempts demoExpiredUser 200
      = { demoExpiredUser with loginAttempts := 1, lockUntil := none } :=
  (incLoginAttempts_spec demoExpiredUser 200).1 50 rfl (by decide)

/-- C7: a login attempt on a currently locked account is rejected at the
lock gate: the lockout response is returned, the password is never compared,
incLoginAttempts is never reached, and the stored user document (counter and
lock timestamp included) is exactly the one that was read. -/
theorem login_locked_gate (u : User) (pc : Bool) (now t : Nat)
    (hl : u.lockUntil = some t) (hn : now < t) :
    login (some u) pc now
      = ⟨423, "Account is temporarily locked due to too many failed login attempts. Please try again later.",
          some u, false, false⟩ := by
  have : isLocked u now = true := by simp [isLocked, hl, hn]
  simp [login, this]

/-- Witness for C7 at the demo locked user. -/
theorem login_locked_gate_witness :
    login (some demoLockedUser) false 5
      = ⟨423, "Account is temporarily locked due to too many failed login attempts. Please try again later.",
          some demoLockedUser, false, false⟩ :=
  login_locked_gate demoLockedUser false 5 1000 rfl (by decide)

/-- C5 counterexample: the middleware with requireAll set and default bypass
admits the demo SuperAdmin although neither required permission is in its
effective set, so the admit-iff-both claim is false for that principal. -/
theorem permission_policy_superadmin_counterexample :
    (requirePermissions ["post.create", "post.read"] ⟨true, true⟩
        (some demoSuperUser)).decision.isAllow = true
      ∧ ("post.create" ∈ (getAllPermissions demoSuperUser).map Permission.pname
          ∧ "post.read" ∈ (getAllPermissions demoSuperUser).map Permission.pname)
          = False := by
  refine ⟨rfl, ?_⟩
  simp [getAllPermissions, rolePermissionsOf, demoSuperUser, demoSuperRole]

/-- C5 amended: for an authenticated principal not hitting the SuperAdmin
bypass, the middleware with requireAll set admits iff both required
permissions are among the resolved permission names, and with requireAll
unset admits iff at least one is; on denial the 403 payload carries the full
required list (hence every missing required permission) together with the
resolved permission names. -/
theorem permission_policy_pair (a b : String) (u : User) (r : Role)
    (h : u.role = some r) (hn : r.rname ≠ "SuperAdmin") :
    (((requirePermissions [a, b] ⟨true, true⟩ (some u)).decision.isAllow = true)
        ↔ (a ∈ (getAllPermissions u).map Permission.pname
            ∧ b ∈ (getAllPermissions u).map Permission.pname))
    ∧ (((requirePermissions [a, b] ⟨false, true⟩ (some u)).decision.isAllow = true)
        ↔ (a ∈ (getAllPermissions u).map Permission.pname
            ∨ b ∈ (getAllPermissions u).map Permission.pname))
    ∧ (¬ (a ∈ (getAllPermissions u).map Permission.pname
            ∧ b ∈ (getAllPermissions u).map Permission.pname) →
        (requirePermissions [a, b] ⟨true, true⟩ (some u)).decision
          = Decision.deny [a, b] ((getAllPermissions u).map Permission.pname))
    ∧ (¬ (a ∈ (getAllPermissions u).map Permission.pname
            ∨ b ∈ (getAllPermissions u).map Permission.pname) →
        (requirePermissions [a, b] ⟨false, true⟩ (some u)).decision
          = Decision.deny [a, b] ((getAllPermissions u).map Permission.pname)) := by
  have hb : roleNameIs u "SuperAdmin" = false := by simp [roleNameIs, h, hn]
  by_cases hma : a ∈ (getAllPermissions u).map Permission.pname <;>
    by_cases hmb : b ∈ (getAllPermissions u).map Permission.pname <;>
      [skip; skip; skip; skip] <;>
    · simp only [List.mem_map] at hma hmb
      simp [requirePermissions, hb, List.contains, List.mem_map, hma, hmb,
        Decision.isAllow]

/-- Witness for the amended C5: the demo editor (role Editor) holds
post.create but not user.delete, so any-of admits and all-of denies with the
payload naming the required pair and the resolved names. -/
theorem permission_policy_pair_witness :
    ((requirePermissions ["post.create", "user.delete"] ⟨false, true⟩
        (some demoEditorUser)).decision.isAllow = true)
      ∧ (requirePermissions ["post.create", "user.delete"] ⟨true, true⟩
          (some demoEditorUser)).decision
          = Decision.deny ["post.create", "user.delete"]
              ((getAllPermissions demoEditorUser).map Permission.pname) := by
  have hp := permission_policy_pair "post.create" "user.delete"
    demoEditorUser demoEditorRole rfl (by decide)
  refine ⟨hp.2.1.mpr (Or.inl (by decide)), hp.2.2.1 ?_⟩
  intro hcontra
  exact absurd hcontra.2 (by decide)

/-- C8: every rejection of the authenticate middleware carries status 401
and one of its six pairwise distinct messages (missing, expired and invalid
token, user not found, deactivated, locked), never a 403; and the resolver
is not invoked on this path for any input, in particular not on a
deactivated or locked principal. -/
theorem authenticate_authn_failures (tok : Option TokenCheck)
    (findById : Nat → Option User) (now : Nat) :
    ((authenticate tok findById now).2 = false)
    ∧ (∀ st msg, (authenticate tok findById now).1 = AuthResult.fail st msg →
        st = 401 ∧ msg ∈ authenticateFailureMessages)
    ∧ authenticateFailureMessages.Nodup
    ∧ (authenticate none findById now
        = (AuthResult.fail 401 "Access denied. No token provided.", false))
    ∧ (authenticate (some TokenCheck.expired) findById now
        = (AuthResult.fail 401 "Access denied. Token has expired.", false))
    ∧ (authenticate (some TokenCheck.invalid) findById now
        = (AuthResult.fail 401 "Access denied. Invalid token.", false))
    ∧ (∀ uid, findById uid = none →
        authenticate (some (TokenCheck.valid uid)) findById now
          = (AuthResult.fail 401 "Access denied. User not found.", false))
    ∧ (∀ uid v, findById uid = some v → v.isActive = false →
        authenticate (some (TokenCheck.valid uid)) findById now
          = (AuthResult.fail 401 "Access denied. Account is deactivated.", false))
    ∧ (∀ uid v, findById uid = some v → v.isActive = true → isLocked v now = true →
        authenticate (some (TokenCheck.valid uid)) findById now
          = (AuthResult.fail 401 "Access denied. Account is temporarily locked due to too many failed login attempts.", false)) := by
  refine ⟨?_, ?_, by decide, rfl, rfl, rfl, ?_, ?_, ?_⟩
  · cases tok with
    | none => rfl
    | some tc =>
      cases tc with
      | expired => rfl
      | invalid => rfl
      | valid uid =>
        cases hf : findById uid with
        | none => simp [authenticate, hf]
        | some v =>
          by_cases ha : v.isActive = false
          · simp [authenticate, hf, ha]
          · by_cases hlk : isLocked v now = true
            · simp [authenticate, hf, ha, hlk]
            · simp [authenticate, hf, ha, hlk]
  · intro st msg hfail
    cases tok with
    | none =>
      injection hfail with h1 h2
      subst h1; subst h2
      exact ⟨rfl, by decide⟩
    | some tc =>
      cases tc with
      | expired =>
        injection hfail with h1 h2
        subst h1; subst h2
        exact ⟨rfl, by decide⟩
      | invalid =>
        injection hfail with h1 h2
        subst h1; subst h2
        exact ⟨rfl, by decide⟩
      | valid uid =>
        cases hf : findById uid with
        | none =>
          rw [show (authenticate (some (TokenCheck.valid uid)) findById now).1
              = AuthResult.fail 401 "Access denied. User not found." by
            simp [authenticate, hf]] at hfail
          injection hfail with h1 h2
          subst h1; subst h2
          exact ⟨rfl, by decide⟩
        | some v =>
          by_cases ha : v.isActive = false
          · rw [show (authenticate (some (TokenCheck.valid uid)) findById now).1
                = AuthResult.fail 401 "Access denied. Account is deactivated." by
              simp [authenticate, hf, ha]] at hfail
            injection hfail with h1 h2
            subst h1; subst h2
            exact ⟨rfl, by decide⟩
          · by_cases hlk : isLocked v now = true
            · rw [show (authenticate (some (TokenCheck.valid uid)) findById now).1
                  = AuthResult.fail 401 "Access denied. Account is temporarily locked due to too many failed login attempts." by
                simp [authenticate, hf, ha, hlk]] at hfail
              injection hfail with h1 h2
              subst h1; subst h2
              exact ⟨rfl, by decide⟩
            · rw [show (authenticate (some (TokenCheck.valid uid)) findById now).1
                  = AuthResult.ok v by simp [authenticate, hf, ha, hlk]] at hfail
              exact absurd hfail (by simp)
  · intro uid hf
    simp [authenticate, hf]
  · intro uid v hf ha
    simp [authenticate, hf, ha]
  · intro uid v hf ha hlk
    simp [authenticate, hf, ha, hlk]

/-- Witness for C8: the deactivated demo user is rejected 401 deactivated. -/
theorem authenticate_authn_failures_witness :
    authenticate (some (TokenCheck.valid 7)) demoFindById 0
      = (AuthResult.fail 401 "Access denied. Account is deactivated.", false) :=
  (authenticate_authn_failures (some (TokenCheck.valid 7)) demoFindById 0).2.2.2.2.2.2.2.1
    7 demoInactiveUser rfl rfl

/-- After granting a single permission, its id is in the granted list
(whether or not the grant was rejected as redundant). -/
theorem grant_snd_granted_self (w : User) (X : Permission) :
    hasPid ((grantCustomPermissions w [X]).2).customPermissions.granted X.pid
      = true := by
  by_cases hg : hasPid w.customPermissions.granted X.pid = true
  · rw [grant_single_already w X hg]
    exact hg
  · simp only [Bool.not_eq_true] at hg
    rw [grant_single_fresh w X hg]
    simp [hasPid_append, hasPid_singleton]

/-- After a successful grant of a single permission, its id is cleared from
the revoked list. -/
theorem grant_snd_revoked_self (w : User) (X : Permission)
    (hg : hasPid w.customPermissions.granted X.pid = false) :
    hasPid ((grantCustomPermissions w [X]).2).customPermissions.revoked X.pid
      = false := by
  rw [grant_single_fresh w X hg]
  rw [hasPid_filter_not]
  simp [hasPid_singleton]

/-- After revoking a single permission its id is removed from granted. -/
theorem revoke_snd_granted_self (w : User) (X : Permission) :
    hasPid ((revokeCustomPermissions w [X]).2).customPermissions.granted X.pid
      = false := by
  rw [revoke_single_eq w X]
  rw [hasPid_filter_not]
  simp [hasPid_singleton]

/-- After revoking a single permission its id is in the revoked list. -/
theorem revoke_snd_revoked_self (w : User) (X : Permission) :
    hasPid ((revokeCustomPermissions w [X]).2).customPermissions.revoked X.pid
      = true := by
  rw [revoke_single_eq w X]
  by_cases hr : hasPid w.customPermissions.revoked X.pid = true
  · simp [hr]
  · simp only [Bool.not_eq_true] at hr
    simp [hr, hasPid_append, hasPid_singleton]

/-- C6: from a state with disjoint override lists, every successful grant
and every successful revoke leaves the lists disjoint (a successful grant
adds the permission to granted and clears it from revoked, a revoke adds it
to revoked and clears it from granted); and the stored sequence grant X,
revoke X, grant X ends with X granted, X not revoked, and X in the effective
permission set. -/
theorem override_disjoint_roundtrip (u : User) (X : Permission)
    (hd : DisjointOverrides u) :
    (∀ req u2, grantCustomPermissions u req = (none, u2) → DisjointOverrides u2)
    ∧ (∀ req u2, revokeCustomPermissions u req = (none, u2) → DisjointOverrides u2)
    ∧ (∀ u2, grantCustomPermissions u [X] = (none, u2) →
        hasPid u2.customPermissions.granted X.pid = true
          ∧ hasPid u2.customPermissions.revoked X.pid = false)
    ∧ (∀ u2, revokeCustomPermissions u [X] = (none, u2) →
        hasPid u2.customPermissions.revoked X.pid = true
          ∧ hasPid u2.customPermissions.granted X.pid = false)
    ∧ (hasPid (((grantCustomPermissions ((revokeCustomPermissions
          ((grantCustomPermissions u [X]).2) [X]).2) [X]).2).customPermissions.granted)
          X.pid = true
       ∧ hasPid (((grantCustomPermissions ((revokeCustomPermissions
          ((grantCustomPermissions u [X]).2) [X]).2) [X]).2).customPermissions.revoked)
          X.pid = false
       ∧ hasPid (getAllPermissions ((grantCustomPermissions ((revokeCustomPermissions
          ((grantCustomPermissions u [X]).2) [X]).2) [X]).2)) X.pid = true) := by
  refine ⟨?_, ?_, ?_, ?_, ?_⟩
  · intro req u2 hok
    have he := grant_ok_eq u req u2 hok
    subst he
    intro p hp
    simp only [List.mem_append, List.mem_filter] at hp
    rw [hasPid_filter_not]
    rcases hp with hp | ⟨hpr, hpg⟩
    · rw [hd p hp, Bool.false_and]
    · have hq : hasPid req p.pid = true :=
        (hasPid_iff_exists req p.pid).mpr ⟨p, hpr, rfl⟩
      rw [hq, Bool.not_true, Bool.and_false]
  · intro req u2 hok
    have he := revoke_ok_eq u req u2 hok
    subst he
    intro p hp
    simp only [List.mem_filter] at hp
    have hreq : hasPid req p.pid = false := by
      simpa using hp.2
    rw [hasPid_ite_empty_append, hasPid_filter_not, hd p hp.1, hreq]
    rfl
  · intro u2 hok
    by_cases hg : hasPid u.customPermissions.granted X.pid = true
    · rw [grant_single_already u X hg] at hok
      simp at hok
    · simp only [Bool.not_eq_true] at hg
      rw [grant_single_fresh u X hg] at hok
      injection hok with h1 h2
      subst h2
      constructor
      · simp [hasPid_append, hasPid_singleton]
      · rw [hasPid_filter_not]
        simp [hasPid_singleton]
  · intro u2 hok
    rw [revoke_single_eq u X] at hok
    injection hok with h1 h2
    subst h2
    constructor
    · by_cases hr : hasPid u.customPermissions.revoked X.pid = true
      · simp [hr]
      · simp only [Bool.not_eq_true] at hr
        simp [hr, hasPid_append, hasPid_singleton]
    · rw [hasPid_filter_not]
      simp [hasPid_singleton]
  · have hD := revoke_snd_granted_self ((grantCustomPermissions u [X]).2) X
    refine ⟨grant_snd_granted_self _ X, grant_snd_revoked_self _ X hD, ?_⟩
    rw [hasPid_getAllPermissions]
    rw [grant_snd_granted_self _ X, grant_snd_revoked_self _ X hD]
    simp

/-- Witness for C6 at the demo editor and the already-granted delete
permission: after grant, revoke, grant the permission is granted, not
revoked, and effective. -/
theorem override_disjoint_roundtrip_witness :
    hasPid (((grantCustomPermissions ((revokeCustomPermissions
        ((grantCustomPermissions demoEditorUser [pDelete]).2) [pDelete]).2)
        [pDelete]).2).customPermissions.granted) 3 = true
      ∧ hasPid (((grantCustomPermissions ((revokeCustomPermissions
          ((grantCustomPermissions demoEditorUser [pDelete]).2) [pDelete]).2)
          [pDelete]).2).customPermissions.revoked) 3 = false
      ∧ hasPid (getAllPermissions ((grantCustomPermissions ((revokeCustomPermissions
          ((grantCustomPermissions demoEditorUser [pDelete]).2) [pDelete]).2)
          [pDelete]).2)) 3 = true :=
  (override_disjoint_roundtrip demoEditorUser pDelete (by unfold DisjointOverrides; decide)).2.2.2.2

/-- C10: when every requested permission is already in the granted list, the
grant operation rejects with the already-granted error and the user document
is returned exactly as it was — in particular a requested permission still
present in revoked stays there. -/
theorem grant_all_already_granted (u : User) (req : List Permission)
    (hne : req ≠ [])
    (hall : ∀ p ∈ req, hasPid u.customPermissions.granted p.pid = true) :
    grantCustomPermissions u req
      = (some "All specified permissions are already granted to this user", u) := by
  have h1 : req.isEmpty = false := List.isEmpty_eq_false.mpr hne
  have h2 : (req.filter (fun p => !(hasPid u.customPermissions.granted p.pid)))
      = [] := by
    rw [List.filter_eq_nil_iff]
    intro p hp
    simp [hall p hp]
  simp [grantCustomPermissions, h1, h2]

/-- Witness for C10: the overlap user keeps the delete permission in both
lists when the redundant grant is rejected. -/
theorem grant_all_already_granted_witness :
    grantCustomPermissions demoOverlapUser [pDelete]
      = (some "All specified permissions are already granted to this user",
          demoOverlapUser)
      ∧ hasPid demoOverlapUser.customPermissions.revoked 3 = true :=
  ⟨grant_all_already_granted demoOverlapUser [pDelete] (by decide) (by decide),
    by decide⟩

end RBAC
